import Mathlib

/-!
Verification of `projectq/backends/_aqt/_aqt_http_client.py` (AQT cloud
client).  The Python module is embedded shallowly: the HTTP environment
(responses to the PUT requests, and SIGINT deliveries) is an explicit
oracle parameter, session state (`self.backends`, `self.token`) is passed
explicitly, and every `raise` becomes an `Except.error` carrying a
constructor of `AQTError`.  The embedding follows the source line by line;
`time.sleep` and `print` calls are ignored (they do not affect the values
the claims speak about).
-/

/-- One device record of `self.backends`: the dict
`{'nq': ..., 'version': ..., 'url': ...}` built by `update_devices_list`. -/
structure DeviceInfo where
  nq : Nat
  version : String
  url : String
deriving Repr, DecidableEq

/-- `self.backends`: a dict from device name to its record, modelled as an
association list with lookup-first semantics. -/
abbrev Catalog := List (String × DeviceInfo)

/-- Session state of the `AQT(Session)` object: the device catalog and the
stored token (`self.headers` carries no behaviour the claims mention). -/
structure AQTState where
  backends : Catalog
  token : Option String
deriving Repr, DecidableEq

/-- The exception kinds the module can raise.  `httpError`,
`requestException` and `keyError` embed `requests.exceptions.HTTPError`,
`requests.exceptions.RequestException` and Python's `KeyError`.
Modelled from the spec: `DeviceOfflineError`, `DeviceTooSmall` and
`RequestTimeoutError` live in `projectq/backends/_exceptions.py`, which is
not among the staged files; per the spec's error-handling design they are
error kinds distinct from the transport and parse categories, so they get
constructors of their own (in Python: plain `Exception` subclasses, not
subclasses of the `requests` exceptions).  `genericError` is a bare
`raise Exception(...)`; `interrupted` is the exception the temporary
SIGINT handler raises. -/
inductive AQTError where
  | httpError (code : Nat)
  | requestException (msg : String)
  | keyError (key : String)
  | genericError (msg : String)
  | deviceOffline (msg : String)
  | deviceTooSmall (msg : String)
  | requestTimeout (msg : String)
  | interrupted (msg : String)
deriving Repr, DecidableEq

/-- The SIGINT handler slot.  `installedOutsidePython` is the state in which
`signal.getsignal` returns `None` (a handler installed by non-Python code);
`custom id` is the `_handle_sigint_during_get_result` closure built inside
`get_result` for job `id`. -/
inductive SigHandler where
  | installedOutsidePython
  | defaultHandler
  | custom (executionId : String)
deriving Repr, DecidableEq

/-- The response the environment returns to one poll PUT request, together
with whether a SIGINT arrives during that iteration of the loop.  `status`
and `samples` are the optional fields of the response JSON;
`connectionFailure` models the PUT itself raising a
`requests.exceptions.RequestException` (no response at all). -/
structure PollStep where
  interrupt : Bool
  connectionFailure : Bool
  statusCode : Nat
  status : Option String
  samples : Option (List Nat)
deriving Repr, DecidableEq

/-- The response the environment returns to the submit PUT request of
`AQT.run`. -/
structure SubmitResponse where
  connectionFailure : Bool
  statusCode : Nat
  status : Option String
  id : Option String
deriving Repr, DecidableEq

/-- The `info` dict handed to `run` / `can_run_experiment`: the fields the
module reads (`'circuit'`, `'shots'`, `'nq'`). -/
structure JobInfo where
  circuit : String
  shots : Nat
  nq : Nat
deriving Repr, DecidableEq

/-- `requests.Response.raise_for_status` raises `HTTPError` exactly for
status codes in `[400, 600)` (client and server errors); other codes,
2xx included, pass silently. -/
def raiseForStatus (code : Nat) : Except AQTError Unit :=
  if 400 ≤ code ∧ code < 600 then .error (.httpError code) else .ok ()

namespace AQT

/-- The fixed dict `update_devices_list` always installs: the three
hardcoded devices with their qubit capacities, versions and URL paths. -/
def defaultBackends : Catalog :=
  [("aqt_simulator", ⟨11, "0.0.1", "sim/"⟩),
   ("aqt_simulator_noise", ⟨11, "0.0.1", "sim/noise-model-1"⟩),
   ("aqt_device", ⟨4, "0.0.1", "lint/"⟩)]

/-- `update_devices_list`: discards the old catalog and installs the fixed
three-entry catalog `defaultBackends` (the API offers no live-device call,
so the list is hardcoded).  `verbose` only prints and is dropped. -/
def update_devices_list (s : AQTState) : AQTState :=
  { s with backends := defaultBackends }

/-- `is_online`: `device in self.backends`, a key-membership test on the
current catalog. -/
def is_online (s : AQTState) (device : String) : Bool :=
  (s.backends.lookup device).isSome

/-- `can_run_experiment`: reads `self.backends[device]['nq']` (a missing
device is a `KeyError`) and `info['nq']`, and returns the triple
`(nb_qubit_needed <= nb_qubit_max, nb_qubit_max, nb_qubit_needed)`.
Pure: no request is issued and the state is not touched. -/
def can_run_experiment (s : AQTState) (info : JobInfo) (device : String) :
    Except AQTError (Bool × Nat × Nat) :=
  match s.backends.lookup device with
  | none => .error (.keyError device)
  | some d => .ok (decide (info.nq ≤ d.nq), d.nq, info.nq)

/-- `run`: submit the circuit.  Looks up the device URL (KeyError when
absent), issues the PUT (the environment's `resp` stands for its outcome),
calls `raise_for_status`, then requires `r_json['status'] == 'queued'`
(missing field: KeyError; any other value: `Exception('Error in sending
the code online')`) and returns `r_json['id']`. -/
def run (s : AQTState) (info : JobInfo) (device : String)
    (resp : SubmitResponse) : Except AQTError String :=
  match s.backends.lookup device with
  | none => .error (.keyError device)
  | some _ =>
    if resp.connectionFailure then
      .error (.requestException "connection failure")
    else
      match raiseForStatus resp.statusCode with
      | .error e => .error e
      | .ok _ =>
        match resp.status with
        | none => .error (.keyError "status")
        | some st =>
          if st ≠ "queued" then
            .error (.genericError "Error in sending the code online")
          else
            match resp.id with
            | none => .error (.keyError "id")
            | some i => .ok i

deriving instance DecidableEq for Except

/-- Outcome of the `for retries in range(num_retries)` loop of
`get_result`: a `return r_json['samples']`, a raised exception, or falling
off the end of the range. -/
inductive LoopResult where
  | done (samples : List Nat)
  | err (e : AQTError)
  | timedOut
deriving Repr, DecidableEq

/-- The poll loop of `get_result`.  `oracle i` is the environment's
behaviour at iteration `retries = i`; `fuel` is the number of iterations
left (`num_retries - retries`), `polls` counts the PUT requests issued so
far.  Per iteration, in source order: the temporary SIGINT handler fires
if a SIGINT arrives (we deliver it at the iteration boundary); the URL
lookup `self.backends[device]['url']`; the PUT and `raise_for_status`;
`r_json['status'] == 'finished' or 'samples' in r_json` (reading
`'status'` first, so its absence is a KeyError) returning
`r_json['samples']`; any status other than `'running'` raising; then
`time.sleep`, and when `is_online(device) and retries % 60 == 0`, the
catalog refresh and the offline re-check. -/
def pollLoop (oracle : Nat → PollStep) (device executionId : String) :
    Nat → Nat → AQTState → Nat → LoopResult × Nat × AQTState
  | 0, _, s, polls => (.timedOut, polls, s)
  | fuel + 1, retries, s, polls =>
    let step := oracle retries
    if step.interrupt then
      (.err (.interrupted
        ("Interrupted. The ID of your submitted job is " ++ executionId ++ ".")),
       polls, s)
    else
      match s.backends.lookup device with
      | none => (.err (.keyError device), polls, s)
      | some _ =>
        if step.connectionFailure then
          (.err (.requestException "connection failure"), polls + 1, s)
        else
          match raiseForStatus step.statusCode with
          | .error e => (.err e, polls + 1, s)
          | .ok _ =>
            match step.status with
            | none => (.err (.keyError "status"), polls + 1, s)
            | some st =>
              if st == "finished" || step.samples.isSome then
                match step.samples with
                | some smp => (.done smp, polls + 1, s)
                | none => (.err (.keyError "samples"), polls + 1, s)
              else if st != "running" then
                (.err (.genericError
                  ("Error while running the code: " ++ st ++ ".")),
                 polls + 1, s)
              else
                if is_online s device && retries % 60 == 0 then
                  let s2 := update_devices_list s
                  if !(is_online s2 device) then
                    (.err (.deviceOffline
                      ("Device went offline. The ID of your submitted job is "
                        ++ executionId ++ ".")),
                     polls + 1, s2)
                  else
                    pollLoop oracle device executionId fuel (retries + 1) s2 (polls + 1)
                else
                  pollLoop oracle device executionId fuel (retries + 1) s (polls + 1)

/-- Everything observable about one `get_result` call: the returned samples
or raised exception, how many poll PUTs were issued, the final catalog
state, and the SIGINT handler left installed afterwards. -/
structure GetResultOut where
  result : Except AQTError (List Nat)
  polls : Nat
  finalState : AQTState
  finalHandler : SigHandler
deriving Repr, DecidableEq

/-- `get_result`: saves `signal.getsignal(SIGINT)` (`h0`), installs the
job-specific handler, runs the poll loop inside `try`, and in `finally`
restores the saved handler — but only `if original_sigint_handler is not
None` (a `None` from `getsignal` means the previous handler was installed
outside Python and cannot be re-installed, so the temporary handler stays).
The `RequestTimeoutError` for an exhausted range is raised after the
`finally` block. -/
def get_result (oracle : Nat → PollStep) (s : AQTState) (h0 : SigHandler)
    (device executionId : String) (num_retries : Nat) : GetResultOut :=
  let out := pollLoop oracle device executionId num_retries 0 s 0
  let hFinal : SigHandler :=
    if h0 = SigHandler.installedOutsidePython then SigHandler.custom executionId
    else h0
  match out with
  | (.done smp, polls, s1) => ⟨.ok smp, polls, s1, hFinal⟩
  | (.err e, polls, s1) => ⟨.error e, polls, s1, hFinal⟩
  | (.timedOut, polls, s1) =>
    ⟨.error (.requestTimeout
      ("Timeout. The ID of your submitted job is " ++ executionId ++ ".")),
     polls, s1, hFinal⟩

end AQT

/-- The environment one `send` call runs against: the response to the
submit PUT, the poll responses, and what `getpass.getpass` would return
were no token supplied. -/
structure SendEnv where
  submitResp : SubmitResponse
  poll : Nat → PollStep
  promptToken : String

/-- The except clauses of `send`: `requests.exceptions.HTTPError`,
`requests.exceptions.RequestException` and `KeyError` are caught (HTTPError
is itself a RequestException); every other exception — DeviceOfflineError,
DeviceTooSmall, RequestTimeoutError, the bare Exceptions — propagates. -/
def caughtBySend : AQTError → Bool
  | .httpError _ => true
  | .requestException _ => true
  | .keyError _ => true
  | _ => false

/-- The body of `send`'s `try` block: fresh session, `authenticate`,
`update_devices_list`, the `is_online` gate (offline: `DeviceOfflineError`),
the `can_run_experiment` gate (too small: `DeviceTooSmall`), then `run` and
`get_result`. -/
def sendPipeline (env : SendEnv) (info : JobInfo) (device : String)
    (token : Option String) (num_retries : Nat) : Except AQTError (List Nat) :=
  let tok := match token with
    | some t => t
    | none => env.promptToken
  let s0 : AQTState := { backends := [], token := some tok }
  let s1 := AQT.update_devices_list s0
  if !(AQT.is_online s1 device) then
    .error (.deviceOffline "Device is offline.")
  else
    match AQT.can_run_experiment s1 info device with
    | .error e => .error e
    | .ok (runnable, _qmax, _qneeded) =>
      if !runnable then
        .error (.deviceTooSmall "Device is too small.")
      else
        match AQT.run s1 info device env.submitResp with
        | .error e => .error e
        | .ok executionId =>
          (AQT.get_result env.poll s1 SigHandler.defaultHandler device
            executionId num_retries).result

/-- `send`: the `try` body wrapped in the three except clauses, which print
the error and fall through to `return None`.  `.ok (some r)` is a returned
sample list, `.ok none` is the caught-and-reported `None` return, and
`.error e` is an exception that propagates to the caller. -/
def send (env : SendEnv) (info : JobInfo) (device : String)
    (token : Option String) (num_retries : Nat) :
    Except AQTError (Option (List Nat)) :=
  match sendPipeline env info device token num_retries with
  | .ok r => .ok (some r)
  | .error e => if caughtBySend e then .ok none else .error e

/-! ### Helper scenarios and lemmas -/

/-- A poll response with status `"running"` and nothing else: no SIGINT, no
transport failure, a 200 code, no samples. -/
def runningStep : PollStep := ⟨false, false, 200, some "running", none⟩

/-- A poll response with status `"finished"` carrying `samples`. -/
def finishedStep (smp : List Nat) : PollStep := ⟨false, false, 200, some "finished", some smp⟩

/-- The session state right after `update_devices_list`: the fixed catalog
plus whatever token is stored. -/
def defaultState (t : Option String) : AQTState := ⟨AQT.defaultBackends, t⟩

/-- The scripted endpoint of the spec's poll property: `"running"` on the
first `N - 1` calls, then `"finished"` with `samples = [x]`. -/
def scriptedOracle (N x : Nat) : Nat → PollStep :=
  fun i => if i + 1 < N then runningStep else finishedStep [x]

/-- Whether a `get_result` outcome is a raised `DeviceOfflineError`. -/
def isDeviceOffline : Except AQTError (List Nat) → Bool
  | .error (.deviceOffline _) => true
  | _ => false

/-- Whether a poll-loop outcome is a raised `DeviceOfflineError`. -/
def loopIsDeviceOffline : AQT.LoopResult → Bool
  | .err (.deviceOffline _) => true
  | _ => false

theorem update_devices_list_defaultState (t : Option String) :
    AQT.update_devices_list (defaultState t) = defaultState t := rfl

theorem update_devices_list_backends (s : AQTState) :
    (AQT.update_devices_list s).backends = AQT.defaultBackends := rfl

theorem lookup_isSome_iff_mem_keys (l : Catalog) (a : String) :
    (l.lookup a).isSome = true ↔ a ∈ l.map Prod.fst := by
  induction l with
  | nil => simp [List.lookup]
  | cons p tl ih =>
    obtain ⟨k, v⟩ := p
    by_cases h : a = k
    · subst h; simp [List.lookup]
    · have hb : (a == k) = false := beq_eq_false_iff_ne.mpr h
      simp only [List.lookup, hb, List.map_cons, List.mem_cons]
      simp [h, ih]

theorem is_online_defaultState (t : Option String) (device : String)
    (d : DeviceInfo) (hd : AQT.defaultBackends.lookup device = some d) :
    AQT.is_online (defaultState t) device = true := by
  simp [AQT.is_online, defaultState, hd]

/-- Peeling one `"running"` iteration of the poll loop when the state is the
post-refresh state and the device is in the fixed catalog: the catalog
refresh (when `retries % 60 == 0`) leaves the state unchanged and the
offline re-check passes, so the loop advances. -/
theorem pollLoop_running (oracle : Nat → PollStep) (device eid : String)
    (d : DeviceInfo) (t : Option String) (fuel retries polls : Nat)
    (hd : AQT.defaultBackends.lookup device = some d)
    (ho : oracle retries = runningStep) :
    AQT.pollLoop oracle device eid (fuel + 1) retries (defaultState t) polls
      = AQT.pollLoop oracle device eid fuel (retries + 1) (defaultState t) (polls + 1) := by
  rw [AQT.pollLoop]
  simp only [ho, runningStep]
  rw [show (defaultState t).backends = AQT.defaultBackends from rfl, hd]
  simp only [raiseForStatus]
  norm_num
  rw [is_online_defaultState t device d hd]
  rw [show AQT.update_devices_list (defaultState t) = defaultState t from rfl]
  rw [is_online_defaultState t device d hd]
  cases h60 : retries % 60 == 0 <;> simp

/-- Peeling `k` consecutive `"running"` iterations. -/
theorem pollLoop_running_many (oracle : Nat → PollStep) (device eid : String)
    (d : DeviceInfo) (t : Option String) (k : Nat)
    (hd : AQT.defaultBackends.lookup device = some d) :
    ∀ (fuel retries polls : Nat),
      (∀ j, j < k → oracle (retries + j) = runningStep) →
      AQT.pollLoop oracle device eid (fuel + k) retries (defaultState t) polls
        = AQT.pollLoop oracle device eid fuel (retries + k) (defaultState t) (polls + k) := by
  induction k with
  | zero => intro fuel retries polls _; rfl
  | succ k ih =>
    intro fuel retries polls h
    have h0 : oracle retries = runningStep := by
      have := h 0 (Nat.succ_pos k)
      simpa using this
    have step := pollLoop_running oracle device eid d t (fuel + k) retries polls hd h0
    rw [show fuel + (k + 1) = (fuel + k) + 1 by omega] at *
    rw [step]
    have tail := ih fuel (retries + 1) (polls + 1)
      (fun j hj => by
        have hh := h (j + 1) (by omega)
        rw [show retries + 1 + j = retries + (j + 1) by omega]
        exact hh)
    rw [tail]
    rw [show retries + 1 + k = retries + (k + 1) by omega,
        show polls + 1 + k = polls + (k + 1) by omega]

/-- A run of nothing but `"running"` responses exhausts the range: the loop
falls through having issued exactly `fuel` poll requests. -/
theorem pollLoop_timeout (oracle : Nat → PollStep) (device eid : String)
    (d : DeviceInfo) (t : Option String) (fuel retries polls : Nat)
    (hd : AQT.defaultBackends.lookup device = some d)
    (h : ∀ j, j < fuel → oracle (retries + j) = runningStep) :
    AQT.pollLoop oracle device eid fuel retries (defaultState t) polls
      = (.timedOut, polls + fuel, defaultState t) := by
  have := pollLoop_running_many oracle device eid d t fuel hd 0 retries polls h
  rw [Nat.zero_add] at this
  rw [this]
  rfl

/-- A `"finished"` response with samples present returns them at once. -/
theorem pollLoop_finished (oracle : Nat → PollStep) (device eid : String)
    (d : DeviceInfo) (t : Option String) (fuel retries polls : Nat)
    (smp : List Nat)
    (hd : AQT.defaultBackends.lookup device = some d)
    (ho : oracle retries = finishedStep smp) :
    AQT.pollLoop oracle device eid (fuel + 1) retries (defaultState t) polls
      = (.done smp, polls + 1, defaultState t) := by
  rw [AQT.pollLoop]
  simp only [ho, finishedStep]
  rw [show (defaultState t).backends = AQT.defaultBackends from rfl, hd]
  simp [raiseForStatus]

/-! ### Claims -/

/-- A concrete job used by witnesses: a 3-qubit circuit, 10 shots. -/
def jinfo : JobInfo := ⟨"circuit", 10, 3⟩

/-- Claim C10: `get_result` with `num_retries = 0` runs `range(0)`, so no
status request is ever issued (`polls = 0`) and the `RequestTimeoutError`
carrying the execution id is raised immediately. -/
theorem claim_C10 (oracle : Nat → PollStep) (s : AQTState) (h0 : SigHandler)
    (device eid : String) :
    (AQT.get_result oracle s h0 device eid 0).result
        = .error (.requestTimeout ("Timeout. The ID of your submitted job is " ++ eid ++ "."))
      ∧ (AQT.get_result oracle s h0 device eid 0).polls = 0 := by
  constructor <;> rfl

/-- Claim C8: `is_online` answers key membership in the current catalog, and
`update_devices_list` is idempotent and replaces whatever catalog was there
with the fixed three-device catalog. -/
theorem claim_C8 :
    (∀ (s : AQTState) (device : String),
        AQT.is_online s device = true ↔ device ∈ s.backends.map Prod.fst)
    ∧ (∀ s : AQTState,
        AQT.update_devices_list (AQT.update_devices_list s) = AQT.update_devices_list s)
    ∧ (∀ s : AQTState, (AQT.update_devices_list s).backends = AQT.defaultBackends) := by
  refine ⟨?_, ?_, ?_⟩
  · intro s device
    exact lookup_isSome_iff_mem_keys s.backends device
  · intro s; rfl
  · intro s; rfl

/-- Claim C3: against the default catalog, `can_run_experiment` returns
`fits = true` iff the job's qubit count is at most the device's `nq`, hands
back the device's `nq` and the job's qubit count unchanged, and a device
name absent from the catalog is a lookup (`KeyError`) failure.  The
operation is pure: it takes the state and returns no new one. -/
theorem claim_C3 (t : Option String) (info : JobInfo) :
    (∀ (device : String) (d : DeviceInfo) (fits : Bool) (mx nd : Nat),
        AQT.defaultBackends.lookup device = some d →
        AQT.can_run_experiment (defaultState t) info device = .ok (fits, mx, nd) →
        (fits = true ↔ info.nq ≤ d.nq) ∧ mx = d.nq ∧ nd = info.nq)
    ∧ (∀ device : String,
        AQT.defaultBackends.lookup device = none →
        AQT.can_run_experiment (defaultState t) info device = .error (.keyError device)) := by
  constructor
  · intro device d fits mx nd hd hok
    simp only [AQT.can_run_experiment] at hok
    rw [show (defaultState t).backends = AQT.defaultBackends from rfl, hd] at hok
    simp only [Except.ok.injEq, Prod.mk.injEq] at hok
    obtain ⟨h1, h2, h3⟩ := hok
    subst h1; subst h2; subst h3
    simp
  · intro device hd
    simp only [AQT.can_run_experiment]
    rw [show (defaultState t).backends = AQT.defaultBackends from rfl, hd]

/-- Witness for C3: on `aqt_device` (4 qubits) a 3-qubit job fits with the
values passed through, and an unknown device name is a lookup failure. -/
theorem claim_C3_witness :
    ((true = true ↔ jinfo.nq ≤ 4) ∧ 4 = 4 ∧ 3 = jinfo.nq)
    ∧ AQT.can_run_experiment (defaultState (some "t")) jinfo "aqt_nope"
        = .error (.keyError "aqt_nope") :=
  ⟨(claim_C3 (some "t") jinfo).1 "aqt_device" ⟨4, "0.0.1", "lint/"⟩ true 4 3
      (by decide) (by decide),
   (claim_C3 (some "t") jinfo).2 "aqt_nope" (by decide)⟩

/-- Counterexample to C4 as stated: `raise_for_status` only raises for
status codes in `[400, 600)`, so a non-2xx response — here a 304 — whose
JSON says `status = "queued"` makes `run` return the execution id without
raising. -/
theorem claim_C4_counterexample :
    AQT.run (defaultState (some "tok")) jinfo "aqt_simulator"
        ⟨false, 304, some "queued", some "42"⟩ = .ok "42"
      ∧ ¬(200 ≤ 304 ∧ 304 < 300) := by decide

/-- Claim C4, amended: for a device in the catalog, `run` returns an
execution id exactly when the PUT succeeded, the status code is outside
`[400, 600)` (the `raise_for_status` range — not "2xx"), the response's
status field is `"queued"`, and the id field is present; in every other
case it raises before returning any id. -/
theorem claim_C4 (s : AQTState) (info : JobInfo) (device : String)
    (resp : SubmitResponse) (d : DeviceInfo) (i : String)
    (hd : s.backends.lookup device = some d) :
    AQT.run s info device resp = .ok i ↔
      (resp.connectionFailure = false
        ∧ ¬(400 ≤ resp.statusCode ∧ resp.statusCode < 600)
        ∧ resp.status = some "queued" ∧ resp.id = some i) := by
  simp only [AQT.run, hd, raiseForStatus]
  by_cases hcode : 400 ≤ resp.statusCode ∧ resp.statusCode < 600
  · rw [if_pos hcode]
    cases hcf : resp.connectionFailure <;> simp [hcode]
  · rw [if_neg hcode]
    cases hcf : resp.connectionFailure
    · cases hst : resp.status with
      | none => simp [hcode]
      | some st =>
        by_cases hq : st = "queued"
        · subst hq
          cases hid : resp.id with
          | none => simp [hcode]
          | some j => simp [hcode]
        · simp [hq, hcode]
    · simp [hcode]

/-- Witness for C4: a 201 response with `status = "queued"` and an id
yields that id. -/
theorem claim_C4_witness :
    AQT.run (defaultState (some "t")) jinfo "aqt_simulator"
        ⟨false, 201, some "queued", some "ID7"⟩ = .ok "ID7" :=
  (claim_C4 (defaultState (some "t")) jinfo "aqt_simulator"
      ⟨false, 201, some "queued", some "ID7"⟩ ⟨11, "0.0.1", "sim/"⟩ "ID7"
      (by decide)).mpr (by decide)

/-- Claim C5: a first poll response whose status is neither `"finished"`
nor `"running"` and which carries no samples field makes `get_result` raise
the generic execution error with the reported status at once, after exactly
one poll request. -/
theorem claim_C5 (oracle : Nat → PollStep) (s : AQTState) (h0 : SigHandler)
    (device eid st : String) (d : DeviceInfo) (n : Nat)
    (hn : 1 ≤ n) (hd : s.backends.lookup device = some d)
    (ho : oracle 0 = ⟨false, false, 200, some st, none⟩)
    (hf : st ≠ "finished") (hr : st ≠ "running") :
    (AQT.get_result oracle s h0 device eid n).result
        = .error (.genericError ("Error while running the code: " ++ st ++ "."))
      ∧ (AQT.get_result oracle s h0 device eid n).polls = 1 := by
  obtain ⟨m, rfl⟩ : ∃ m, n = m + 1 := ⟨n - 1, by omega⟩
  have hf' : (st == "finished") = false := beq_eq_false_iff_ne.mpr hf
  have hr' : (st != "running") = true := by simp [bne_iff_ne, hr]
  have hloop : AQT.pollLoop oracle device eid (m + 1) 0 s 0
      = (.err (.genericError ("Error while running the code: " ++ st ++ ".")), 1, s) := by
    rw [AQT.pollLoop]
    simp only [ho]
    rw [hd]
    simp [raiseForStatus, hf', hr']
  constructor <;> simp [AQT.get_result, hloop]

/-- Witness for C5: a first response with `status = "error"` raises the
execution error on the spot. -/
theorem claim_C5_witness :
    (AQT.get_result (fun _ => ⟨false, false, 200, some "error", none⟩)
        (defaultState (some "t")) SigHandler.defaultHandler "aqt_simulator" "W5" 3000).result
      = .error (.genericError ("Error while running the code: " ++ "error" ++ ".")) :=
  (claim_C5 (fun _ => ⟨false, false, 200, some "error", none⟩) (defaultState (some "t"))
      SigHandler.defaultHandler "aqt_simulator" "W5" "error" ⟨11, "0.0.1", "sim/"⟩ 3000
      (by omega) (by decide) rfl (by decide) (by decide)).1

/-- Counterexample to C7 as stated: the `finally` block restores the saved
handler only `if original_sigint_handler is not None`; when
`signal.getsignal` returned `None` (a handler installed outside Python),
the temporary handler stays installed on exit. -/
theorem claim_C7_counterexample :
    (AQT.get_result (fun _ => runningStep) (defaultState (some "t"))
        SigHandler.installedOutsidePython "aqt_simulator" "JOB" 1).finalHandler
        = SigHandler.custom "JOB"
      ∧ SigHandler.custom "JOB" ≠ SigHandler.installedOutsidePython := by decide

/-- Claim C7, amended: whenever the previously installed handler was one
`signal.getsignal` could report (not `None`), the `finally` block restores
it on every exit path of the poll loop — normal return, raised error,
exhausted range or interrupt alike (the oracle ranges over all of these). -/
theorem claim_C7 (oracle : Nat → PollStep) (s : AQTState) (h0 : SigHandler)
    (device eid : String) (n : Nat)
    (h : h0 ≠ SigHandler.installedOutsidePython) :
    (AQT.get_result oracle s h0 device eid n).finalHandler = h0 := by
  unfold AQT.get_result
  rcases AQT.pollLoop oracle device eid n 0 s 0 with ⟨r, polls, s1⟩
  cases r <;> simp [h]

/-- Witness for C7: with the default handler saved, it is the handler left
installed after a run that exhausts its range. -/
theorem claim_C7_witness :
    (AQT.get_result (fun _ => runningStep) (defaultState (some "t"))
        SigHandler.defaultHandler "aqt_simulator" "JOB2" 2).finalHandler
      = SigHandler.defaultHandler :=
  claim_C7 (fun _ => runningStep) (defaultState (some "t")) SigHandler.defaultHandler
    "aqt_simulator" "JOB2" 2 (by decide)

/-- A session whose catalog still holds a stale entry that the hardcoded
refresh of `update_devices_list` will drop. -/
def staleCatalogState : AQTState := ⟨[("aqt_legacy", ⟨11, "0.0.1", "old/"⟩)], some "tok"⟩

/-- Counterexample to C1 as stated: `retries % 60 == 0` is first true at
`retries = 0`, so the catalog-refresh-and-liveness re-check runs on the
first attempt, not the 60th.  With the default `num_retries = 3000`, an
always-`"running"` endpoint and a device the refresh reports offline,
`DeviceOfflineError` is raised at attempt 1 (`polls = 1`) — before
attempt 60. -/
theorem claim_C1_counterexample :
    (AQT.get_result (fun _ => runningStep) staleCatalogState SigHandler.defaultHandler
        "aqt_legacy" "myjob" 3000).result
        = .error (.deviceOffline "Device went offline. The ID of your submitted job is myjob.")
      ∧ (AQT.get_result (fun _ => runningStep) staleCatalogState SigHandler.defaultHandler
        "aqt_legacy" "myjob" 3000).polls = 1 := by decide

/-- Claim C1, amended: the liveness re-check runs on the attempts whose
0-based index is divisible by 60, i.e. attempts 1, 61, 121, …; a device
that the hardcoded refresh reports offline is therefore detected at the
first re-check: with an always-`"running"` endpoint and any
`num_retries ≥ 1`, `DeviceOfflineError` (carrying the job id) is raised at
attempt 1. -/
theorem claim_C1 (oracle : Nat → PollStep) (s : AQTState) (h0 : SigHandler)
    (device eid : String) (n : Nat)
    (hn : 1 ≤ n) (ho : oracle 0 = runningStep)
    (honline : AQT.is_online s device = true)
    (hoff : AQT.defaultBackends.lookup device = none) :
    (AQT.get_result oracle s h0 device eid n).result
        = .error (.deviceOffline
            ("Device went offline. The ID of your submitted job is " ++ eid ++ "."))
      ∧ (AQT.get_result oracle s h0 device eid n).polls = 1 := by
  obtain ⟨m, rfl⟩ : ∃ m, n = m + 1 := ⟨n - 1, by omega⟩
  obtain ⟨d, hd⟩ : ∃ d, s.backends.lookup device = some d := by
    have h := honline
    simp only [AQT.is_online, Option.isSome_iff_exists] at h
    exact h
  have hupd : AQT.is_online (AQT.update_devices_list s) device = false := by
    simp [AQT.is_online, update_devices_list_backends, hoff]
  have hloop : AQT.pollLoop oracle device eid (m + 1) 0 s 0
      = (.err (.deviceOffline
          ("Device went offline. The ID of your submitted job is " ++ eid ++ ".")),
         1, AQT.update_devices_list s) := by
    rw [AQT.pollLoop]
    simp only [ho, runningStep]
    rw [hd]
    simp [raiseForStatus, honline, hupd]
  constructor <;> simp [AQT.get_result, hloop]

/-- Witness for C1's amended statement, at a concrete stale device and the
default 3000 retries. -/
theorem claim_C1_witness :
    (AQT.get_result (fun _ => runningStep) ⟨[("aqt_old", ⟨11, "0.0.1", "old/"⟩)], some "w"⟩
        SigHandler.defaultHandler "aqt_old" "W1" 3000).result
        = .error (.deviceOffline
            ("Device went offline. The ID of your submitted job is " ++ "W1" ++ "."))
      ∧ (AQT.get_result (fun _ => runningStep) ⟨[("aqt_old", ⟨11, "0.0.1", "old/"⟩)], some "w"⟩
        SigHandler.defaultHandler "aqt_old" "W1" 3000).polls = 1 :=
  claim_C1 (fun _ => runningStep) ⟨[("aqt_old", ⟨11, "0.0.1", "old/"⟩)], some "w"⟩
    SigHandler.defaultHandler "aqt_old" "W1" 3000 (by omega) rfl (by decide) (by decide)

/-- Claim C2: against the scripted endpoint that answers `"running"` for
the first `N - 1` polls and then `"finished"` with `samples = [x]`, a
`get_result` with `num_retries ≥ N` returns exactly `[x]` after `N` polls,
and one with `num_retries < N` exhausts its range after `num_retries`
polls and raises `RequestTimeoutError` carrying the execution id. -/
theorem claim_C2 (N x n : Nat) (device eid : String) (d : DeviceInfo)
    (t : Option String) (h0 : SigHandler)
    (hN : 1 ≤ N) (hd : AQT.defaultBackends.lookup device = some d) :
    (N ≤ n →
      (AQT.get_result (scriptedOracle N x) (defaultState t) h0 device eid n).result = .ok [x]
      ∧ (AQT.get_result (scriptedOracle N x) (defaultState t) h0 device eid n).polls = N)
    ∧ (n < N →
      (AQT.get_result (scriptedOracle N x) (defaultState t) h0 device eid n).result
        = .error (.requestTimeout ("Timeout. The ID of your submitted job is " ++ eid ++ "."))
      ∧ (AQT.get_result (scriptedOracle N x) (defaultState t) h0 device eid n).polls = n) := by
  constructor
  · intro hle
    have hrun : ∀ j, j < N - 1 → scriptedOracle N x (0 + j) = runningStep := by
      intro j hj
      simp only [scriptedOracle, Nat.zero_add]
      rw [if_pos (by omega)]
    have hfin : scriptedOracle N x (N - 1) = finishedStep [x] := by
      simp only [scriptedOracle]
      rw [if_neg (by omega)]
    have key : AQT.pollLoop (scriptedOracle N x) device eid n 0 (defaultState t) 0
        = (.done [x], N, defaultState t) := by
      rw [show n = ((n - N) + 1) + (N - 1) by omega]
      rw [pollLoop_running_many (scriptedOracle N x) device eid d t (N - 1) hd
          ((n - N) + 1) 0 0 hrun]
      simp only [Nat.zero_add]
      rw [pollLoop_finished (scriptedOracle N x) device eid d t (n - N) (N - 1) (N - 1)
          [x] hd hfin]
      rw [show N - 1 + 1 = N by omega]
    constructor <;> simp [AQT.get_result, key]
  · intro hlt
    have hrun : ∀ j, j < n → scriptedOracle N x (0 + j) = runningStep := by
      intro j hj
      simp only [scriptedOracle, Nat.zero_add]
      rw [if_pos (by omega)]
    have key := pollLoop_timeout (scriptedOracle N x) device eid d t n 0 0 hd hrun
    rw [Nat.zero_add] at key
    constructor <;> simp [AQT.get_result, key]

/-- Witness for C2: `N = 3`, sample 7, `num_retries = 5 ≥ 3` returns `[7]`. -/
theorem claim_C2_witness :
    (AQT.get_result (scriptedOracle 3 7) (defaultState (some "t")) SigHandler.defaultHandler
        "aqt_simulator" "W2" 5).result = .ok [7] :=
  ((claim_C2 3 7 5 "aqt_simulator" "W2" ⟨11, "0.0.1", "sim/"⟩ (some "t")
      SigHandler.defaultHandler (by omega) (by decide)).1 (by omega)).1

/-- For a device of the fixed catalog the offline branch of the poll loop
is unreachable from any starting state: the refresh always repopulates the
same three devices, so the re-check's `is_online` is true right after it. -/
theorem pollLoop_no_offline (oracle : Nat → PollStep) (device eid : String)
    (d : DeviceInfo) (hd : AQT.defaultBackends.lookup device = some d) :
    ∀ (fuel retries polls : Nat) (s : AQTState),
      loopIsDeviceOffline (AQT.pollLoop oracle device eid fuel retries s polls).1 = false := by
  intro fuel
  induction fuel with
  | zero => intro retries polls s; rfl
  | succ fuel ih =>
    intro retries polls s
    rw [AQT.pollLoop]
    have hupd : AQT.is_online (AQT.update_devices_list s) device = true := by
      simp [AQT.is_online, update_devices_list_backends, hd]
    simp only [hupd, Bool.not_true]
    repeat' split
    all_goals first
      | rfl
      | apply ih
      | (rename_i heq
         simp only [raiseForStatus] at heq
         split at heq
         · rw [Except.error.injEq] at heq
           subst heq
           rfl
         · exact Except.noConfusion heq)
      | simp_all

/-- Claim C9: for a device of the fixed catalog (`aqt_simulator`,
`aqt_simulator_noise`, `aqt_device`), `get_result` never raises
`DeviceOfflineError`, whatever the endpoint does, however many retries, and
from whatever starting catalog. -/
theorem claim_C9 (oracle : Nat → PollStep) (s : AQTState) (h0 : SigHandler)
    (device eid : String) (n : Nat) (d : DeviceInfo)
    (hd : AQT.defaultBackends.lookup device = some d) :
    isDeviceOffline (AQT.get_result oracle s h0 device eid n).result = false := by
  have h := pollLoop_no_offline oracle device eid d hd n 0 0 s
  unfold AQT.get_result
  rcases hpl : AQT.pollLoop oracle device eid n 0 s 0 with ⟨r, polls, s1⟩
  rw [hpl] at h
  cases r with
  | done smp => simp [isDeviceOffline]
  | err e => cases e <;> simp_all [isDeviceOffline, loopIsDeviceOffline]
  | timedOut => simp [isDeviceOffline]

/-- Witness for C9 at `aqt_device`, an always-`"running"` endpoint and a
starting catalog that does not even contain the device. -/
theorem claim_C9_witness :
    isDeviceOffline (AQT.get_result (fun _ => runningStep) ⟨[], some "t"⟩
        SigHandler.defaultHandler "aqt_device" "W9" 3).result = false :=
  claim_C9 (fun _ => runningStep) ⟨[], some "t"⟩ SigHandler.defaultHandler
    "aqt_device" "W9" 3 ⟨4, "0.0.1", "lint/"⟩ (by decide)

/-- Claim C6: `send` catches transport errors (HTTP 4xx/5xx responses),
generic request errors (a failed PUT), and response-parsing key errors,
reporting them and returning the absent-result sentinel `None`; while
`DeviceOfflineError`, `DeviceTooSmall` and `RequestTimeoutError` are not
among its except clauses and propagate to the caller. -/
theorem claim_C6 (env : SendEnv) (info : JobInfo) (device : String)
    (token : Option String) (n : Nat) (d : DeviceInfo) (eid : String) :
    (AQT.defaultBackends.lookup device = some d → info.nq ≤ d.nq →
      400 ≤ env.submitResp.statusCode → env.submitResp.statusCode < 600 →
      env.submitResp.connectionFailure = false →
      send env info device token n = .ok none)
    ∧ (AQT.defaultBackends.lookup device = some d → info.nq ≤ d.nq →
      env.submitResp.connectionFailure = true →
      send env info device token n = .ok none)
    ∧ (AQT.defaultBackends.lookup device = some d → info.nq ≤ d.nq →
      env.submitResp.connectionFailure = false →
      ¬(400 ≤ env.submitResp.statusCode ∧ env.submitResp.statusCode < 600) →
      env.submitResp.status = none →
      send env info device token n = .ok none)
    ∧ (AQT.defaultBackends.lookup device = none →
      send env info device token n = .error (.deviceOffline "Device is offline."))
    ∧ (AQT.defaultBackends.lookup device = some d → d.nq < info.nq →
      send env info device token n = .error (.deviceTooSmall "Device is too small."))
    ∧ (AQT.defaultBackends.lookup device = some d → info.nq ≤ d.nq →
      env.submitResp = ⟨false, 200, some "queued", some eid⟩ →
      (∀ j, env.poll j = runningStep) →
      send env info device token n
        = .error (.requestTimeout ("Timeout. The ID of your submitted job is " ++ eid ++ "."))) := by
  refine ⟨?_, ?_, ?_, ?_, ?_, ?_⟩
  · intro hd hfits hc1 hc2 hcf
    have hdec : decide (info.nq ≤ d.nq) = true := decide_eq_true hfits
    have hhttp : raiseForStatus env.submitResp.statusCode
        = .error (.httpError env.submitResp.statusCode) := by
      simp [raiseForStatus, hc1, hc2]
    cases token <;>
      simp [send, sendPipeline, AQT.update_devices_list, AQT.is_online,
        AQT.can_run_experiment, AQT.run, hd, hdec, hcf, hhttp, caughtBySend]
  · intro hd hfits hcf
    have hdec : decide (info.nq ≤ d.nq) = true := decide_eq_true hfits
    cases token <;>
      simp [send, sendPipeline, AQT.update_devices_list, AQT.is_online,
        AQT.can_run_experiment, AQT.run, hd, hdec, hcf, caughtBySend]
  · intro hd hfits hcf hcode hst
    have hdec : decide (info.nq ≤ d.nq) = true := decide_eq_true hfits
    have hhttp : raiseForStatus env.submitResp.statusCode = .ok () := by
      simp [raiseForStatus, hcode]
    cases token <;>
      simp [send, sendPipeline, AQT.update_devices_list, AQT.is_online,
        AQT.can_run_experiment, AQT.run, hd, hdec, hcf, hhttp, hst, caughtBySend]
  · intro hnone
    cases token <;>
      simp [send, sendPipeline, AQT.update_devices_list, AQT.is_online, hnone, caughtBySend]
  · intro hd hsmall
    have hdec : decide (info.nq ≤ d.nq) = false := decide_eq_false (by omega)
    cases token <;>
      simp [send, sendPipeline, AQT.update_devices_list, AQT.is_online,
        AQT.can_run_experiment, hd, hdec, caughtBySend]
  · intro hd hfits hresp hpoll
    have hdec : decide (info.nq ≤ d.nq) = true := decide_eq_true hfits
    cases token with
    | none =>
      have hloop : AQT.pollLoop env.poll device eid n 0
          ⟨AQT.defaultBackends, some env.promptToken⟩ 0
          = (AQT.LoopResult.timedOut, n, ⟨AQT.defaultBackends, some env.promptToken⟩) := by
        have h := pollLoop_timeout env.poll device eid d (some env.promptToken) n 0 0 hd
          (fun j _ => by rw [Nat.zero_add]; exact hpoll j)
        rw [Nat.zero_add] at h
        exact h
      simp [send, sendPipeline, AQT.update_devices_list, AQT.is_online,
        AQT.can_run_experiment, AQT.run, raiseForStatus, hd, hdec, hresp,
        AQT.get_result, hloop, caughtBySend]
    | some tk =>
      have hloop : AQT.pollLoop env.poll device eid n 0
          ⟨AQT.defaultBackends, some tk⟩ 0
          = (AQT.LoopResult.timedOut, n, ⟨AQT.defaultBackends, some tk⟩) := by
        have h := pollLoop_timeout env.poll device eid d (some tk) n 0 0 hd
          (fun j _ => by rw [Nat.zero_add]; exact hpoll j)
        rw [Nat.zero_add] at h
        exact h
      simp [send, sendPipeline, AQT.update_devices_list, AQT.is_online,
        AQT.can_run_experiment, AQT.run, raiseForStatus, hd, hdec, hresp,
        AQT.get_result, hloop, caughtBySend]

/-- A `send` environment whose submit endpoint answers HTTP 500. -/
def env500 : SendEnv := ⟨⟨false, 500, some "queued", some "E"⟩, fun _ => runningStep, "ptok"⟩

/-- A `send` environment whose submit succeeds but whose poll endpoint
always answers `"running"`. -/
def envTimeout : SendEnv := ⟨⟨false, 200, some "queued", some "E2"⟩, fun _ => runningStep, "ptok"⟩

/-- Witness for C6: an HTTP 500 on submit is swallowed into `None`, while
an exhausted poll range propagates `RequestTimeoutError`. -/
theorem claim_C6_witness :
    send env500 jinfo "aqt_simulator" (some "tk") 7 = .ok none
    ∧ send envTimeout jinfo "aqt_simulator" (some "tk") 7
        = .error (.requestTimeout ("Timeout. The ID of your submitted job is " ++ "E2" ++ ".")) :=
  ⟨(claim_C6 env500 jinfo "aqt_simulator" (some "tk") 7 ⟨11, "0.0.1", "sim/"⟩ "E").1
      (by decide) (by decide) (by decide) (by decide) (by decide),
   (claim_C6 envTimeout jinfo "aqt_simulator" (some "tk") 7 ⟨11, "0.0.1", "sim/"⟩ "E2").2.2.2.2.2
      (by decide) (by decide) rfl (fun _ => rfl)⟩
